import Mathlib

/-!
Verification of the linear-agent-v0 webhook router and its leaf libraries.

The definitions below are a shallow embedding of the JavaScript sources:
  - src/lib/agent-plans.js        (plan tracker, pure)
  - src/lib/repo-detection.js     (repository resolver, pure)
  - src/lib/linear.js             (session store half: storeSession / getSession / updateSession)
  - src/unnamed/part_001          (the event router: handleLinearWebhook and the
                                   created / prompted handlers)
  - src/unnamed/part_002          (formatIssueForV0Prompt)

Stateful code is embedded as explicit world passing: a `World` carries the
session store, the trace of outbound calls issued so far, and instrumentation
logs of store reads and writes.  JavaScript exceptions are modelled by the
`JsOutcome.thrown` constructor; external collaborators (tracker activity API,
generation API, deployment API) are modelled by an `Env` of oracle functions
returning `Except`.
-/

set_option linter.unusedVariables false
set_option linter.unreachableTactic false
set_option linter.unusedTactic false

/-- Step state strings used by src/lib/agent-plans.js:
PENDING, CURRENT, COMPLETED, FAILED. -/
inductive StepState where
  | pending
  | current
  | completed
  | failed
  deriving DecidableEq, Repr

/-- A plan step as built by agent-plans.js: an object with `text` and `state`. -/
structure PlanStep where
  text : String
  state : StepState
  deriving DecidableEq, Repr

/-- JavaScript `Array.prototype.map((x, i) => ...)` starting at index `n`;
the markStep functions of agent-plans.js use it with `n = 0`. -/
def mapWithIndexFrom (f : Nat → α → β) : Nat → List α → List β
  | _, [] => []
  | n, a :: rest => f n a :: mapWithIndexFrom f (n + 1) rest

/-- `generateUIGenerationPlan` from src/lib/agent-plans.js (lines 20-39). -/
def generateUIGenerationPlan (hasRepo needsSelection : Bool) : List PlanStep :=
  let steps : List PlanStep := [⟨"Analyze issue requirements", .completed⟩]
  let steps :=
    if needsSelection then
      steps ++ [⟨"Wait for repository selection", .current⟩,
                ⟨"Import repository context", .pending⟩]
    else if hasRepo then
      steps ++ [⟨"Import repository context", .current⟩]
    else
      steps
  steps ++ [⟨"Generate UI components with V0", if hasRepo then .pending else .current⟩,
            ⟨"Review generated code", .pending⟩,
            ⟨"Deploy preview to Vercel", .pending⟩]

/-- `markStepCurrent` from src/lib/agent-plans.js (lines 85-90). -/
def markStepCurrent (steps : List PlanStep) (index : Nat) : List PlanStep :=
  mapWithIndexFrom (fun i step =>
    { step with
      state := if i < index then .completed
               else if i = index then .current
               else .pending }) 0 steps

/-- `markStepCompleted` from src/lib/agent-plans.js (lines 99-104). -/
def markStepCompleted (steps : List PlanStep) (index : Nat) : List PlanStep :=
  mapWithIndexFrom (fun i step =>
    { step with state := if i ≤ index then .completed else step.state }) 0 steps

/-- `markStepFailed` from src/lib/agent-plans.js (lines 113-118). -/
def markStepFailed (steps : List PlanStep) (index : Nat) : List PlanStep :=
  mapWithIndexFrom (fun i step =>
    { step with state := if i = index then .failed else step.state }) 0 steps

/-! ### JavaScript value helpers -/

/-- JavaScript `a || b` on an optional string: an absent or empty string is
falsy and falls through to the default. -/
def jsOrString (o : Option String) (d : String) : String :=
  match o with
  | none => d
  | some s => if s = "" then d else s

/-- JavaScript `a || b` where both operands are optional strings. -/
def jsOrOpt (a b : Option String) : Option String :=
  match a with
  | none => b
  | some s => if s = "" then b else s

/-- JavaScript truthiness of an optional string (`!!x` / `if (x)`). -/
def jsTruthyStr (o : Option String) : Bool :=
  match o with
  | none => false
  | some s => s ≠ ""

/-- String interpolation of a possibly-undefined value (`${x}`). -/
def jsStr (o : Option String) : String :=
  o.getD "undefined"

/-- JavaScript `hay.includes(needle)` for the non-empty needles used in
formatIssueForV0Prompt. -/
def jsIncludes (hay needle : String) : Bool :=
  (hay.splitOn needle).length > 1

/-! ### Data model: inbound event payloads (spec section 6) -/

/-- One entry of `issueRepositorySuggestions`. -/
structure RepoSuggestion where
  owner : String
  name : String
  url : Option String := none
  deriving DecidableEq, Repr

/-- A label object carried on the issue (`labels: [{name}]`). -/
structure IssueLabel where
  name : String
  deriving DecidableEq, Repr

/-- The issue object nested in an agent session payload. -/
structure Issue where
  id : String := ""
  identifier : String := ""
  title : String := ""
  description : Option String := none
  branchName : Option String := none
  labels : Option (List IssueLabel) := none
  deriving DecidableEq, Repr

/-- One `guidance.signals` entry of a prompted event. -/
structure GuidanceSignal where
  key : String
  value : Option String := none
  deriving DecidableEq, Repr

/-- The `guidance` object of a prompted event. -/
structure Guidance where
  signals : Option (List GuidanceSignal) := none
  deriving DecidableEq, Repr

/-- The `agentSession` object of an AgentSessionEvent payload. -/
structure AgentSession where
  id : String
  issue : Option Issue := none
  promptContext : Option String := none
  issueRepositorySuggestions : Option (List RepoSuggestion) := none
  guidance : Option Guidance := none
  deriving DecidableEq, Repr

/-- The `data` field of an inbound webhook payload. -/
structure EventData where
  agentSession : Option AgentSession := none
  deriving DecidableEq, Repr

/-- An inbound webhook payload as consumed by handleLinearWebhook. -/
structure Payload where
  type : Option String := none
  action : Option String := none
  data : Option EventData := none
  deriving DecidableEq, Repr

/-! ### Repository resolver: src/lib/repo-detection.js -/

/-- Character class `[a-zA-Z0-9_-]` of the GitHub-URL regex in
detectRepository. -/
def isOwnerChar (c : Char) : Bool :=
  c.isAlphanum || c = '_' || c = '-'

/-- Character class `[a-zA-Z0-9_.-]` of the GitHub-URL regex. -/
def isRepoChar (c : Char) : Bool :=
  isOwnerChar c || c = '.'

/-- Greedy run of characters satisfying `p`, returning the run and the rest. -/
def takeRun (p : Char → Bool) : List Char → List Char × List Char
  | [] => ([], [])
  | c :: rest =>
    if p c then
      let (run, rest2) := takeRun p rest
      (c :: run, rest2)
    else
      ([], c :: rest)

/-- Try to match `https?://github.com/<owner>/<repo>` at the head of the
character list, i.e. the regex of detectRepository anchored at one position;
returns the captured owner and repo. -/
def matchGithubAt (cs : List Char) : Option (String × String) :=
  let afterScheme : Option (List Char) :=
    match cs with
    | 'h' :: 't' :: 't' :: 'p' :: rest =>
      match rest with
      | 's' :: rest2 => some rest2
      | _ => some rest
    | _ => none
  match afterScheme with
  | none => none
  | some rest =>
    match rest with
    | ':' :: '/' :: '/' :: 'g' :: 'i' :: 't' :: 'h' :: 'u' :: 'b' :: '.' :: 'c' :: 'o' :: 'm' :: '/' :: rest2 =>
      let (ownerRun, rest3) := takeRun isOwnerChar rest2
      if ownerRun = [] then none
      else
        match rest3 with
        | '/' :: rest4 =>
          let (repoRun, _) := takeRun isRepoChar rest4
          if repoRun = [] then none
          else some (String.mk ownerRun, String.mk repoRun)
        | _ => none
    | _ => none

/-- Leftmost match of the GitHub-URL regex anywhere in the string. -/
def findGithubUrl : List Char → Option (String × String)
  | [] => none
  | c :: rest =>
    match matchGithubAt (c :: rest) with
    | some r => some r
    | none => findGithubUrl rest

/-- `repo.replace(/\.git$/, '')` from detectRepository. -/
def stripDotGit (s : String) : String :=
  if s.endsWith ".git" then s.dropRight 4 else s

/-- The detection result object of detectRepository
(spec section 3, Repository Detection Result). -/
structure DetectionResult where
  repoUrl : Option String
  source : String
  suggestions : Option (List RepoSuggestion) := none
  deriving DecidableEq, Repr

/-- `detectRepository` from src/lib/repo-detection.js (lines 16-51).
Accessing `issue.description` when the payload has no issue raises a
TypeError in JavaScript, modelled by `Except.error`. -/
def detectRepository (s : AgentSession) : Except String DetectionResult :=
  let fromDescription : Except String DetectionResult :=
    match s.issue with
    | none => .error "TypeError: cannot read description of undefined"
    | some issue =>
      let description := jsOrString issue.description ""
      match findGithubUrl description.data with
      | some (owner, repo) =>
        .ok { repoUrl := some ("https://github.com/" ++ owner ++ "/" ++ stripDotGit repo),
              source := "description" }
      | none =>
        .ok { repoUrl := none, source := "none" }
  match s.issueRepositorySuggestions with
  | some suggestions =>
    if suggestions.length > 0 then
      match suggestions with
      | [] => .ok { repoUrl := none, source := "none" }
      | suggestion :: _ =>
        .ok { repoUrl := some (jsOrString suggestion.url
                ("https://github.com/" ++ suggestion.owner ++ "/" ++ suggestion.name)),
              source := "issueRepositorySuggestions",
              suggestions := some suggestions }
    else
      fromDescription
  | none =>
    fromDescription

/-- `generateProjectName` from src/lib/repo-detection.js (lines 59-62). -/
def generateProjectName (issue : Issue) : String :=
  ("linear-" ++ issue.identifier).toLower

/-- `needsRepositorySelection` from src/lib/repo-detection.js (lines 70-73). -/
def needsRepositorySelection (s : AgentSession) : Bool :=
  match s.issueRepositorySuggestions with
  | none => false
  | some suggestions => suggestions.length > 1

/-- An option of a select signal, as built by formatRepoOptionsForSelect. -/
structure SelectOption where
  key : String
  label : String
  value : String
  deriving DecidableEq, Repr

/-- `formatRepoOptionsForSelect` from src/lib/repo-detection.js (lines 81-87). -/
def formatRepoOptionsForSelect (suggestions : List RepoSuggestion) : List SelectOption :=
  mapWithIndexFrom (fun index repo =>
    { key := "repo-" ++ toString index,
      label := repo.owner ++ "/" ++ repo.name,
      value := jsOrString repo.url ("https://github.com/" ++ repo.owner ++ "/" ++ repo.name) }) 0 suggestions

/-! ### Deploy-command classification: the regex `/\bdeploy\b/i` -/

/-- JavaScript word character (`\w`, i.e. `[A-Za-z0-9_]`). -/
def isWordChar (c : Char) : Bool :=
  c.isAlphanum || c = '_'

/-- Case-insensitive match of the literal `deploy` at the head of the list,
returning the remainder. -/
def deployHere (cs : List Char) : Option (List Char) :=
  match cs with
  | c1 :: c2 :: c3 :: c4 :: c5 :: c6 :: rest =>
    if c1.toLower = 'd' && c2.toLower = 'e' && c3.toLower = 'p' &&
       c4.toLower = 'l' && c5.toLower = 'o' && c6.toLower = 'y' then
      some rest
    else
      none
  | _ => none

/-- `\b` after the match: end of input or a non-word character. -/
def boundaryAfter : List Char → Bool
  | [] => true
  | c :: _ => !isWordChar c

/-- Scan for `\bdeploy\b`; `prevIsWord` records whether the character before
the current position is a word character (false at the start of input). -/
def scanDeploy (prevIsWord : Bool) : List Char → Bool
  | [] => false
  | c :: rest =>
    (!prevIsWord &&
      (match deployHere (c :: rest) with
       | some r => boundaryAfter r
       | none => false))
    || scanDeploy (isWordChar c) rest

/-- The deploy-command test `/\bdeploy\b/i.test(message)` of
handleAgentSessionPrompted (src/unnamed/part_001 line 277). -/
def isDeployCommand (message : String) : Bool :=
  scanDeploy false message.data

/-! ### Generation-API prompt helpers -/

/-- `formatIssueForV0Prompt` from src/unnamed/part_002 (v0.js, lines 153-192). -/
def formatIssueForV0Prompt (title : String) (description : Option String)
    (labels : List String) : String :=
  let darkMode := labels.any (fun l => jsIncludes l.toLower "dark")
  let responsive := labels.any (fun l => jsIncludes l.toLower "responsive")
  let a11y := labels.any (fun l =>
    jsIncludes l.toLower "a11y" || jsIncludes l.toLower "accessibility")
  let prompt := "# Component Request: " ++ title ++ "\n\n"
  let prompt := prompt ++
    (match description with
     | none => ""
     | some d => if d = "" then "" else "## Requirements\n" ++ d ++ "\n\n")
  let prompt := prompt ++ "## Tech Stack\n" ++
    "- Framework: Next.js 14+ (App Router)\n" ++
    "- Styling: Tailwind CSS\n" ++
    "- Components: shadcn/ui\n" ++
    "- Language: TypeScript (strict mode)\n\n"
  let prompt := prompt ++
    (if darkMode || responsive || a11y then
      "## Design Requirements\n" ++
      (if darkMode then "- ✅ Dark mode support with proper color schemes\n" else "") ++
      (if responsive then "- ✅ Fully responsive (mobile, tablet, desktop)\n" else "") ++
      (if a11y then "- ✅ WCAG 2.1 AA accessibility compliance\n" else "") ++
      "\n"
    else "")
  prompt ++ "## Additional Guidelines\n" ++
    "- Use semantic HTML elements\n" ++
    "- Implement proper TypeScript types\n" ++
    "- Use Tailwind design tokens (colors, spacing)\n" ++
    "- Ensure components are reusable and composable\n" ++
    "- Add hover/focus states for interactive elements\n"

/-- Modelled from the spec: `extractComplexityFromLabels` is imported by the
router from the generation-API wrapper module, but its definition is not among
the provided sources.  The feature summary specifies label patterns
`complexity:N` / `LN` selecting the complexity, with complexity 3 as the
default tier. -/
def extractComplexityFromLabels (labels : List String) : Nat :=
  let parse : String → Option Nat := fun l =>
    let s := l.toLower
    if s = "complexity:1" || s = "l1" then some 1
    else if s = "complexity:2" || s = "l2" then some 2
    else if s = "complexity:3" || s = "l3" then some 3
    else if s = "complexity:4" || s = "l4" then some 4
    else if s = "complexity:5" || s = "l5" then some 5
    else none
  match labels.findSome? parse with
  | some n => n
  | none => 3

/-- `getModelTier` from src/lib/linear-webhook.js (lines 420-424). -/
def getModelTier (complexity : Nat) : String :=
  if complexity ≤ 2 then "mini"
  else if complexity = 3 then "pro"
  else "max"

/-! ### Session store: src/lib/linear.js, second half (session-store.js) -/

/-- The session record stored by `storeSession` (spec section 3, Session).
Timestamps are modelled as abstract clock readings. -/
structure SessionData where
  linearSessionId : String
  chatId : String
  projectId : Option String := none
  latestVersionId : Option String := none
  chatUrl : Option String := none
  deploymentUrl : Option String := none
  repoUrl : Option String := none
  createdAt : Nat := 0
  updatedAt : Nat := 0
  deriving DecidableEq, Repr

/-- `Map.set` on the association list standing for the session store map. -/
def storePut (store : List (String × SessionData)) (k : String) (v : SessionData) :
    List (String × SessionData) :=
  match store with
  | [] => [(k, v)]
  | (k2, v2) :: rest => if k2 = k then (k, v) :: rest else (k2, v2) :: storePut rest k v

/-- `Map.get` on the association list standing for the session store map. -/
def storeGet (store : List (String × SessionData)) (k : String) : Option SessionData :=
  match store with
  | [] => none
  | (k2, v2) :: rest => if k2 = k then some v2 else storeGet rest k

/-! ### External calls, environment and world -/

/-- The signal object emitted inside an elicitation activity. -/
structure SelectSignal where
  type : String
  key : String
  label : String
  options : List SelectOption
  deriving DecidableEq, Repr

/-- The `content` of a tracker activity (`createAgentActivity`).  Plans are
delivered as content of type `plan` carrying the full step list. -/
inductive ActivityContent where
  | thought (text : String)
  | action (text : String)
  | message (text : String)
  | error (text : String)
  | elicitation (signals : List SelectSignal)
  | plan (title : String) (steps : List PlanStep)
  deriving DecidableEq, Repr

/-- One `{label, url}` pair of an `externalUrls` update. -/
structure ExternalUrl where
  label : String
  url : Option String
  deriving DecidableEq, Repr

/-- The arguments of a from-scratch `createV0Session` call. -/
structure V0CreateArgs where
  prompt : String
  system : String
  projectId : String
  responseMode : String
  model : String
  thinking : Bool
  deriving DecidableEq, Repr

/-- An outbound network call issued by the router, in issue order. -/
inductive Call where
  | createAgentActivity (agentSessionId : String) (content : ActivityContent)
  | updateAgentSession (id : String) (externalUrls : List ExternalUrl)
  | createOrFindProject (name : String)
  | initFromRepo (repoUrl : String) (projectId : String)
  | createV0Chat (args : V0CreateArgs)
  | continueV0Chat (chatId : String) (message : String)
  | deployToVercel (chatId : String) (projectId : Option String)
  deriving DecidableEq, Repr

/-- Result of a successful generation-API call (chat creation or repo init). -/
structure V0Session where
  chatId : String
  chatUrl : String
  deriving DecidableEq, Repr

/-- Result of `createOrFindProject`. -/
structure ProjectInfo where
  projectId : String
  deriving DecidableEq, Repr

/-- Result of `continueV0Session`. -/
structure ContinueResult where
  latestVersionId : Option String := none
  deriving DecidableEq, Repr

/-- Result of `deployToVercel`. -/
structure Deployment where
  deploymentUrl : String
  deriving DecidableEq, Repr

/-- Behaviour of the external collaborators: for each outbound call, either a
returned value or a raised error. -/
structure Env where
  clientOk : Bool := true
  activityResult : String → ActivityContent → Except String Unit := fun _ _ => .ok ()
  updateAgentSessionResult : String → List ExternalUrl → Except String Unit := fun _ _ => .ok ()
  createOrFindProjectResult : String → Except String ProjectInfo := fun _ => .ok ⟨"p"⟩
  initFromRepoResult : String → String → Except String V0Session := fun _ _ => .ok ⟨"c", "u"⟩
  createV0SessionResult : V0CreateArgs → Except String V0Session := fun _ => .ok ⟨"c", "u"⟩
  continueV0SessionResult : String → String → Except String ContinueResult := fun _ _ => .ok {}
  deployToVercelResult : String → Option String → Except String Deployment := fun _ _ => .ok ⟨"d"⟩

/-- The mutable world threaded through a handler invocation: the session store
plus the trace of issued outbound calls, with instrumentation logs recording
the ids passed to `storeSession` (writes) and `getSession` (reads). -/
structure World where
  store : List (String × SessionData) := []
  trace : List Call := []
  writes : List String := []
  reads : List String := []
  now : Nat := 0
  deriving Repr

/-- Outcome of a JavaScript async function: a value or a raised exception,
in both cases with the world as left behind. -/
inductive JsOutcome (α : Type) where
  | ok (value : α) (w : World)
  | thrown (msg : String) (w : World)
  deriving Repr

/-- The world left behind by an outcome. -/
def JsOutcome.world : JsOutcome α → World
  | .ok _ w => w
  | .thrown _ w => w

/-- Whether the outcome is a raised exception. -/
def JsOutcome.isThrown : JsOutcome α → Bool
  | .ok _ _ => false
  | .thrown _ _ => true

/-- Issue an outbound call: the call is appended to the trace before the
environment decides whether it succeeds or raises. -/
def issueCall (w : World) (c : Call) : World :=
  { w with trace := w.trace ++ [c] }

/-- `storeSession` from src/lib/linear.js (lines 281-293): unconditional
`Map.set` of a fresh record with both timestamps taken from the current clock. -/
def storeSession (w : World) (linearSessionId chatId : String)
    (projectId chatUrl repoUrl : Option String) : World :=
  { w with
    store := storePut w.store linearSessionId
      { linearSessionId := linearSessionId
        chatId := chatId
        projectId := projectId
        chatUrl := chatUrl
        repoUrl := repoUrl
        createdAt := w.now
        updatedAt := w.now }
    writes := w.writes ++ [linearSessionId] }

/-- `getSession` from src/lib/linear.js (lines 301-303), with the read logged. -/
def getSession (w : World) (linearSessionId : String) : Option SessionData × World :=
  (storeGet w.store linearSessionId, { w with reads := w.reads ++ [linearSessionId] })

/-- The two partial updates the router passes to `updateSession`. -/
inductive SessionUpdate where
  | setDeploymentUrl (url : String)
  | setLatestVersionId (v : Option String)
  deriving DecidableEq, Repr

/-- `updateSession` from src/lib/linear.js (lines 311-321): merge into the
existing record and refresh `updatedAt`; a no-op when the id is absent. -/
def updateSession (w : World) (linearSessionId : String) (upd : SessionUpdate) : World :=
  match storeGet w.store linearSessionId with
  | none => w
  | some r =>
    let r2 :=
      match upd with
      | .setDeploymentUrl url => { r with deploymentUrl := some url, updatedAt := w.now }
      | .setLatestVersionId v => { r with latestVersionId := v, updatedAt := w.now }
    { w with store := storePut w.store linearSessionId r2 }

/-! ### The event router: src/unnamed/part_001 -/

/-- The structured result object returned by the router entry points. -/
structure HandlerResult where
  success : Bool
  message : String
  sessionId : Option String := none
  chatId : Option String := none
  chatUrl : Option String := none
  awaitingSelection : Option Bool := none
  deploymentUrl : Option String := none
  deriving DecidableEq, Repr

/-- The shared catch block of both handlers (part_001 lines 192-206 and
334-348): best-effort emission of an error activity, any secondary failure
swallowed, then a structured failure result. -/
def routerCatch (env : Env) (sessionId : String) (prefixText msg : String)
    (w : World) : JsOutcome HandlerResult :=
  if env.clientOk then
    let content := ActivityContent.error (prefixText ++ msg)
    let w := issueCall w (.createAgentActivity sessionId content)
    .ok { success := false, message := msg } w
  else
    .ok { success := false, message := msg } w

/-- Steps 7-10 of handleAgentSessionCreated (part_001 lines 156-191): persist
the session, advance the plan, publish the chat link and emit the final
message. -/
def createdTail (env : Env) (sessionId : String) (repoUrl : Option String)
    (project : ProjectInfo) (hasRepo : Bool) (planSteps : List PlanStep)
    (v0Session : V0Session) (w : World) : JsOutcome HandlerResult :=
  let w := storeSession w sessionId v0Session.chatId (some project.projectId)
    (some v0Session.chatUrl) repoUrl
  let genIndex := if hasRepo then 2 else 1
  let planSteps := markStepCurrent planSteps genIndex
  let planContent := ActivityContent.plan "UI Generation Plan" planSteps
  let w := issueCall w (.createAgentActivity sessionId planContent)
  match env.activityResult sessionId planContent with
  | .error e => .thrown e w
  | .ok _ =>
    let urls : List ExternalUrl := [⟨"V0 Chat", some v0Session.chatUrl⟩]
    let w := issueCall w (.updateAgentSession sessionId urls)
    match env.updateAgentSessionResult sessionId urls with
    | .error e => .thrown e w
    | .ok _ =>
      let msgContent := ActivityContent.message
        ("🎨 UI generation complete!\n\n[View in V0](" ++ v0Session.chatUrl ++
         ")\n\n**Commands:**\n- @mention with feedback to iterate\n- @mention with \"deploy\" to deploy to Vercel")
      let w := issueCall w (.createAgentActivity sessionId msgContent)
      match env.activityResult sessionId msgContent with
      | .error e => .thrown e w
      | .ok _ =>
        .ok { success := true, message := "Agent session started",
              sessionId := some sessionId, chatId := some v0Session.chatId,
              chatUrl := some v0Session.chatUrl } w

/-- The try block of handleAgentSessionCreated (part_001 lines 70-191). -/
def createdBody (env : Env) (agentSession : AgentSession) (issue : Issue)
    (w : World) : JsOutcome HandlerResult :=
  let sessionId := agentSession.id
  if !env.clientOk then
    .thrown "LINEAR_ACCESS_TOKEN not set. Agent not installed yet. Visit /auth/install" w
  else
    let thoughtContent := ActivityContent.thought
      "Analyzing UI requirements and detecting repository..."
    let w := issueCall w (.createAgentActivity sessionId thoughtContent)
    match env.activityResult sessionId thoughtContent with
    | .error e => .thrown e w
    | .ok _ =>
      match detectRepository agentSession with
      | .error e => .thrown e w
      | .ok repoDetection =>
        let needsSelection := needsRepositorySelection agentSession
        let hasRepo := jsTruthyStr repoDetection.repoUrl
        let planSteps := generateUIGenerationPlan hasRepo needsSelection
        let planContent := ActivityContent.plan "UI Generation Plan" planSteps
        let w := issueCall w (.createAgentActivity sessionId planContent)
        match env.activityResult sessionId planContent with
        | .error e => .thrown e w
        | .ok _ =>
          if needsSelection then
            match repoDetection.suggestions with
            | none => .thrown "TypeError: cannot read map of undefined" w
            | some suggestions =>
              let elicitContent := ActivityContent.elicitation
                [{ type := "select", key := "repository",
                   label := "Select a repository for this issue",
                   options := formatRepoOptionsForSelect suggestions }]
              let w := issueCall w (.createAgentActivity sessionId elicitContent)
              match env.activityResult sessionId elicitContent with
              | .error e => .thrown e w
              | .ok _ =>
                .ok { success := true, message := "Waiting for repository selection",
                      sessionId := some sessionId, awaitingSelection := some true } w
          else
            let projectName := generateProjectName issue
            let w := issueCall w (.createOrFindProject projectName)
            match env.createOrFindProjectResult projectName with
            | .error e => .thrown e w
            | .ok project =>
              if hasRepo then
                let planSteps2 := markStepCurrent planSteps 1
                let planContent2 := ActivityContent.plan "UI Generation Plan" planSteps2
                let w := issueCall w (.createAgentActivity sessionId planContent2)
                match env.activityResult sessionId planContent2 with
                | .error e => .thrown e w
                | .ok _ =>
                  let repoUrlStr := (repoDetection.repoUrl).getD ""
                  let w := issueCall w (.initFromRepo repoUrlStr project.projectId)
                  match env.initFromRepoResult repoUrlStr project.projectId with
                  | .error e => .thrown e w
                  | .ok v0Session =>
                    let planSteps3 := markStepCompleted planSteps2 1
                    createdTail env sessionId repoDetection.repoUrl project true
                      planSteps3 v0Session w
              else
                let labelNames :=
                  match issue.labels with
                  | some ls => ls.map (fun l => l.name)
                  | none => []
                let prompt := formatIssueForV0Prompt issue.title
                  (jsOrOpt agentSession.promptContext issue.description) labelNames
                let complexity := extractComplexityFromLabels labelNames
                let model := getModelTier complexity
                let args : V0CreateArgs :=
                  { prompt := prompt
                    system := "Generate React components using Next.js 14+ App Router, Tailwind CSS, and shadcn/ui."
                    projectId := project.projectId
                    responseMode := "async"
                    model := model
                    thinking := model = "max" }
                let w := issueCall w (.createV0Chat args)
                match env.createV0SessionResult args with
                | .error e => .thrown e w
                | .ok v0Session =>
                  createdTail env sessionId repoDetection.repoUrl project false
                    planSteps v0Session w

/-- `handleAgentSessionCreated` from src/unnamed/part_001 (lines 55-207).
The destructuring of a missing `data` and the logging access to
`issue.identifier` happen before the try block and therefore raise. -/
def handleAgentSessionCreated (env : Env) (data : Option EventData) (w : World) :
    JsOutcome HandlerResult :=
  match data with
  | none => .thrown "TypeError: cannot destructure agentSession of undefined" w
  | some d =>
    match d.agentSession with
    | none => .ok { success := false, message := "Missing agentSession data" } w
    | some agentSession =>
      match agentSession.issue with
      | none => .thrown "TypeError: cannot read identifier of undefined" w
      | some issue =>
        match createdBody env agentSession issue w with
        | .ok r w2 => .ok r w2
        | .thrown msg w2 =>
          routerCatch env agentSession.id "Failed to create V0 session: " msg w2

/-- The repository-selection branch of handleAgentSessionPrompted
(part_001 lines 234-263). -/
def promptedRepoInit (env : Env) (sessionId : String) (issue : Issue)
    (v : String) (w : World) : JsOutcome HandlerResult :=
  let projectName := generateProjectName issue
  let w := issueCall w (.createOrFindProject projectName)
  match env.createOrFindProjectResult projectName with
  | .error e => .thrown e w
  | .ok project =>
    let w := issueCall w (.initFromRepo v project.projectId)
    match env.initFromRepoResult v project.projectId with
    | .error e => .thrown e w
    | .ok v0Session =>
      let w := storeSession w sessionId v0Session.chatId (some project.projectId)
        (some v0Session.chatUrl) (some v)
      let urls : List ExternalUrl := [⟨"V0 Chat", some v0Session.chatUrl⟩]
      let w := issueCall w (.updateAgentSession sessionId urls)
      match env.updateAgentSessionResult sessionId urls with
      | .error e => .thrown e w
      | .ok _ =>
        let msgContent := ActivityContent.message
          ("🎨 Initialized with " ++ v ++ "\n\n[View in V0](" ++ v0Session.chatUrl ++ ")")
        let w := issueCall w (.createAgentActivity sessionId msgContent)
        match env.activityResult sessionId msgContent with
        | .error e => .thrown e w
        | .ok _ =>
          .ok { success := true, message := "Repository selected and initialized",
                chatId := some v0Session.chatId } w

/-- The deploy branch of handleAgentSessionPrompted (part_001 lines 279-310). -/
def promptedDeploy (env : Env) (sessionId : String) (session : SessionData)
    (w : World) : JsOutcome HandlerResult :=
  let actionContent := ActivityContent.action "Deploying to Vercel..."
  let w := issueCall w (.createAgentActivity sessionId actionContent)
  match env.activityResult sessionId actionContent with
  | .error e => .thrown e w
  | .ok _ =>
    let w := issueCall w (.deployToVercel session.chatId session.projectId)
    match env.deployToVercelResult session.chatId session.projectId with
    | .error e => .thrown e w
    | .ok deployment =>
      let w := updateSession w sessionId (.setDeploymentUrl deployment.deploymentUrl)
      let urls : List ExternalUrl :=
        [⟨"V0 Chat", session.chatUrl⟩,
         ⟨"Vercel Deployment", some deployment.deploymentUrl⟩]
      let w := issueCall w (.updateAgentSession sessionId urls)
      match env.updateAgentSessionResult sessionId urls with
      | .error e => .thrown e w
      | .ok _ =>
        let msgContent := ActivityContent.message
          ("🚀 Deployed to Vercel!\n\n[View Deployment](" ++ deployment.deploymentUrl ++ ")")
        let w := issueCall w (.createAgentActivity sessionId msgContent)
        match env.activityResult sessionId msgContent with
        | .error e => .thrown e w
        | .ok _ =>
          .ok { success := true, message := "Deployed to Vercel",
                deploymentUrl := some deployment.deploymentUrl } w

/-- The refinement branch of handleAgentSessionPrompted
(part_001 lines 312-333). -/
def promptedRefine (env : Env) (sessionId : String) (session : SessionData)
    (message : String) (w : World) : JsOutcome HandlerResult :=
  let actionContent := ActivityContent.action "Applying your feedback..."
  let w := issueCall w (.createAgentActivity sessionId actionContent)
  match env.activityResult sessionId actionContent with
  | .error e => .thrown e w
  | .ok _ =>
    let w := issueCall w (.continueV0Chat session.chatId message)
    match env.continueV0SessionResult session.chatId message with
    | .error e => .thrown e w
    | .ok response =>
      let w := updateSession w sessionId (.setLatestVersionId response.latestVersionId)
      let msgContent := ActivityContent.message
        ("✅ Changes applied!\n\n[View updated version](" ++ jsStr session.chatUrl ++
         ")\n\n@mention with more feedback or \"deploy\" to go live.")
      let w := issueCall w (.createAgentActivity sessionId msgContent)
      match env.activityResult sessionId msgContent with
      | .error e => .thrown e w
      | .ok _ =>
        .ok { success := true, message := "Feedback applied",
              chatId := some session.chatId } w

/-- The repository-selection check of handleAgentSessionPrompted (part_001
lines 234-236): the value of a signal keyed `repository`, provided the
signals array is present and the value truthy. -/
def repoSignalValue (agentSession : AgentSession) : Option String :=
  match agentSession.guidance with
  | none => none
  | some g =>
    match g.signals with
    | none => none
    | some signals =>
      match signals.find? (fun s => s.key = "repository") with
      | none => none
      | some s => if jsTruthyStr s.value then s.value else none

/-- The try block of handleAgentSessionPrompted (part_001 lines 224-333). -/
def promptedBody (env : Env) (agentSession : AgentSession) (issue : Issue)
    (w : World) : JsOutcome HandlerResult :=
  let sessionId := agentSession.id
  if !env.clientOk then
    .thrown "LINEAR_ACCESS_TOKEN not set. Agent not installed yet. Visit /auth/install" w
  else
    let thoughtContent := ActivityContent.thought "Processing your feedback..."
    let w := issueCall w (.createAgentActivity sessionId thoughtContent)
    match env.activityResult sessionId thoughtContent with
    | .error e => .thrown e w
    | .ok _ =>
      match repoSignalValue agentSession with
      | some v => promptedRepoInit env sessionId issue v w
      | none =>
        let (session, w) := getSession w sessionId
        match session with
        | none =>
          let errContent := ActivityContent.error
            "No active V0 session found. Please delegate the issue again."
          let w := issueCall w (.createAgentActivity sessionId errContent)
          match env.activityResult sessionId errContent with
          | .error e => .thrown e w
          | .ok _ => .ok { success := false, message := "No session found" } w
        | some session =>
          let message := jsOrString agentSession.promptContext ""
          if isDeployCommand message then
            promptedDeploy env sessionId session w
          else
            promptedRefine env sessionId session message w

/-- `handleAgentSessionPrompted` from src/unnamed/part_001 (lines 212-349). -/
def handleAgentSessionPrompted (env : Env) (data : Option EventData) (w : World) :
    JsOutcome HandlerResult :=
  match data with
  | none => .thrown "TypeError: cannot destructure agentSession of undefined" w
  | some d =>
    match d.agentSession with
    | none => .ok { success := false, message := "Missing agentSession data" } w
    | some agentSession =>
      match agentSession.issue with
      | none => .thrown "TypeError: cannot read identifier of undefined" w
      | some issue =>
        match promptedBody env agentSession issue w with
        | .ok r w2 => .ok r w2
        | .thrown msg w2 =>
          routerCatch env agentSession.id "Error: " msg w2

/-- `handleLinearWebhook` from src/unnamed/part_001 (lines 31-50): the public
entry point, dispatching on the `type.action` template string. -/
def handleLinearWebhook (env : Env) (payload : Payload) (w : World) :
    JsOutcome HandlerResult :=
  let key := jsStr payload.type ++ "." ++ jsStr payload.action
  if key = "AgentSessionEvent.created" then
    handleAgentSessionCreated env payload.data w
  else if key = "AgentSessionEvent.prompted" then
    handleAgentSessionPrompted env payload.data w
  else
    .ok { success := true, message := "Event ignored" } w

/-! ### Trace observations -/

/-- A generation-API call that creates a generation session
(from-scratch creation or import-from-repository). -/
def Call.isGenerationCreate : Call → Bool
  | .createV0Chat _ => true
  | .initFromRepo _ _ => true
  | _ => false

/-- Any generation-API call (spec section 6: create-from-prompt,
init-from-repository, continue-conversation, find-or-create-project). -/
def Call.isGenerationCall : Call → Bool
  | .createV0Chat _ => true
  | .initFromRepo _ _ => true
  | .continueV0Chat _ _ => true
  | .createOrFindProject _ => true
  | _ => false

/-- A deployment-API call. -/
def Call.isDeploymentCall : Call → Bool
  | .deployToVercel _ _ => true
  | _ => false

/-- A continue-conversation call. -/
def Call.isContinueCall : Call → Bool
  | .continueV0Chat _ _ => true
  | _ => false

/-- An acknowledgment activity of kind `thought`. -/
def Call.isThoughtActivity : Call → Bool
  | .createAgentActivity _ (.thought _) => true
  | _ => false

/-- An error activity addressed to the given session. -/
def Call.isErrorActivityFor (sid : String) : Call → Bool
  | .createAgentActivity sid2 (.error _) => sid2 = sid
  | _ => false

/-- The position of an activity kind in the protocol order of spec section 4.1:
acknowledgment thought first, then elicitation (created step 3), then the
deployment action (prompted step 4.1.a), then the final message, with error
activities last (the shared failure path).  Plan updates are session-level
checklist replacements (spec section 6), not activities, and carry no rank. -/
def activityRank : ActivityContent → Option Nat
  | .thought _ => some 0
  | .elicitation _ => some 1
  | .action _ => some 2
  | .message _ => some 3
  | .error _ => some 4
  | .plan _ _ => none

/-- The protocol ranks of the activities in a trace, in emission order. -/
def activityRanks (tr : List Call) : List Nat :=
  tr.filterMap fun c =>
    match c with
    | .createAgentActivity _ content => activityRank content
    | _ => none

/-- The ordering contract of spec section 4.1: when any outbound call is made
at all, the first one is the acknowledgment thought activity, and the
activities appear in protocol order. -/
def GoodTrace (tr : List Call) : Prop :=
  (∀ c, tr.head? = some c → c.isThoughtActivity = true) ∧
  List.Chain' (· ≤ ·) (activityRanks tr)

/-- Trace invariant of the try blocks: no calls are issued when the tracker
client is unavailable (and some call is issued when it is); the first call, if
any, is the acknowledgment thought; and activities appear in protocol order
with ranks bounded by the error rank. -/
def BodyTraceOk (clientOk : Bool) (tr : List Call) : Prop :=
  (clientOk = false → tr = []) ∧
  (clientOk = true → tr ≠ []) ∧
  (∀ c, tr.head? = some c → c.isThoughtActivity = true) ∧
  List.Chain' (· ≤ ·) (activityRanks tr) ∧
  (∀ r ∈ activityRanks tr, r ≤ 4)

/-! ### Concrete fixtures for the closed theorems -/

/-- The event data of spec section 8 property 7, reused as the duplicate
delivery fixture: an issue with no repository hints. -/
def fixtureData : EventData :=
  { agentSession := some {
      id := "S1"
      issue := some { identifier := "ABC-1", title := "Add login form" }
      promptContext := some "Build a login form"
      issueRepositorySuggestions := some [] } }

/-- Two consecutive invocations of the created handler with the same tracker
session id, the second starting from the world the first left behind
(at-least-once delivery of the same creation event). -/
def runCreatedTwice : JsOutcome HandlerResult :=
  match handleAgentSessionCreated {} (some fixtureData) {} with
  | .ok _ w1 => handleAgentSessionCreated {} (some fixtureData) w1
  | .thrown m w1 => .thrown m w1

/-- A recognized created event whose agentSession is present but whose nested
issue is missing. -/
def missingIssuePayload : Payload :=
  { type := some "AgentSessionEvent"
    action := some "created"
    data := some { agentSession := some { id := "S1" } } }

/-- A session payload whose suggestions list and issue description both carry
a repository hint (the resolver-precedence fixture). -/
def precedenceSession : AgentSession :=
  { id := "S1"
    issue := some { description := some "see https://github.com/foo/bar for context" }
    issueRepositorySuggestions := some [{ owner := "own", name := "nm" }] }

/-- A stored session record used by the prompted-protocol witnesses. -/
def storedSession : SessionData :=
  { linearSessionId := "S1"
    chatId := "chat-1"
    projectId := some "proj-1"
    latestVersionId := some "v5"
    chatUrl := some "https://v0.dev/chat/chat-1"
    deploymentUrl := some "https://old.vercel.app"
    createdAt := 1
    updatedAt := 2 }

/-- A plan value with a failed step, used by the plan-tracker witnesses. -/
def samplePlan : List PlanStep :=
  [⟨"analysis", .completed⟩, ⟨"generation", .failed⟩, ⟨"review", .pending⟩]

/-- The full created-event payload built from `fixtureData`. -/
def createdPayload : Payload :=
  { type := some "AgentSessionEvent", action := some "created", data := some fixtureData }

/-- A plain prompted event fixture: an agent session with an issue and no
guidance signals. -/
def promptedData : EventData :=
  { agentSession := some { id := "S1", issue := some { identifier := "ABC-1" } } }

/-- A prompted event fixture whose promptContext asks for a deployment. -/
def deployPromptData : EventData :=
  { agentSession := some {
      id := "S1"
      issue := some { identifier := "ABC-1" }
      promptContext := some "please deploy this now" } }

/-- A prompted event fixture carrying a repository-selection signal. -/
def repoSignalData : EventData :=
  { agentSession := some {
      id := "S1"
      issue := some { identifier := "ABC-1" }
      guidance := some {
        signals := some [{ key := "repository", value := some "https://github.com/own/nm" }] } } }

/-! ## Theorems -/

theorem mapWithIndexFrom_getElem? (f : Nat → α → β) (n i : Nat) (l : List α) :
    (mapWithIndexFrom f n l)[i]? = (l[i]?).map (f (n + i)) := by
  induction l generalizing n i with
  | nil => simp [mapWithIndexFrom]
  | cons a rest ih =>
    cases i with
    | zero => simp [mapWithIndexFrom]
    | succ j =>
      simp only [mapWithIndexFrom, List.getElem?_cons_succ, ih (n + 1) j,
        Nat.add_succ, Nat.succ_add]

theorem mapWithIndexFrom_length (f : Nat → α → β) (n : Nat) (l : List α) :
    (mapWithIndexFrom f n l).length = l.length := by
  induction l generalizing n with
  | nil => rfl
  | cons a rest ih => simp [mapWithIndexFrom, ih]

/-- The element-wise description of `markStepCurrent`. -/
theorem markStepCurrent_getElem? (steps : List PlanStep) (index i : Nat) :
    (markStepCurrent steps index)[i]? =
      (steps[i]?).map (fun step =>
        { step with
          state := if i < index then .completed
                   else if i = index then .current
                   else .pending }) := by
  simpa using mapWithIndexFrom_getElem? _ 0 i steps

/-- The element-wise description of `markStepCompleted`. -/
theorem markStepCompleted_getElem? (steps : List PlanStep) (index i : Nat) :
    (markStepCompleted steps index)[i]? =
      (steps[i]?).map (fun step =>
        { step with state := if i ≤ index then .completed else step.state }) := by
  simpa using mapWithIndexFrom_getElem? _ 0 i steps

theorem markStepCurrent_countP_aux (k : Nat) (n : Nat) (l : List PlanStep) :
    ((mapWithIndexFrom (fun i step =>
        { step with
          state := if i < k then StepState.completed
                   else if i = k then StepState.current
                   else StepState.pending }) n l).countP
      (fun s => decide (s.state = StepState.current)))
      = if n ≤ k ∧ k < n + l.length then 1 else 0 := by
  induction l generalizing n with
  | nil =>
    have h : ¬(n ≤ k ∧ k < n) := by omega
    simp [mapWithIndexFrom, h]
  | cons a rest ih =>
    simp only [mapWithIndexFrom, List.countP_cons, ih (n + 1), List.length_cons]
    by_cases hlt : n < k
    · simp only [if_pos hlt]
      split_ifs <;> simp_all <;> omega
    · by_cases heq : n = k
      · simp only [if_neg hlt, if_pos heq]
        split_ifs <;> simp_all <;> omega
      · simp only [if_neg hlt, if_neg heq]
        split_ifs <;> simp_all <;> omega

/-- `markStepCurrent` leaves exactly one step in state `current` whenever the
index is in range. -/
theorem markStepCurrent_countP (steps : List PlanStep) (k : Nat)
    (hk : k < steps.length) :
    ((markStepCurrent steps k).countP
      (fun s => decide (s.state = StepState.current))) = 1 := by
  have h := markStepCurrent_countP_aux k 0 steps
  rw [markStepCurrent]
  rw [h]
  simp [hk]

/-- `Map.set` followed by `Map.get` at the same key returns the new record. -/
theorem storeGet_storePut_self (st : List (String × SessionData))
    (k : String) (v : SessionData) :
    storeGet (storePut st k v) k = some v := by
  induction st with
  | nil => simp [storePut, storeGet]
  | cons p rest ih =>
    obtain ⟨k2, v2⟩ := p
    by_cases h : k2 = k
    · simp [storePut, storeGet, h]
    · simp [storePut, storeGet, h, ih]

/-! ### Claim C8 -/

/-- C8: for every well-formed plan and in-range index k, every step of
markStepCompleted(p, k) at index ≤ k has status completed; and in
markStepCurrent(p, k) exactly one step has status current, it is at index k,
and all earlier steps are forced to completed. -/
theorem markStep_completion_monotone_and_unique_current
    (steps : List PlanStep) (k : Nat) (hk : k < steps.length) :
    (∀ i step, i ≤ k → (markStepCompleted steps k)[i]? = some step →
      step.state = StepState.completed) ∧
    ((markStepCurrent steps k).countP
      (fun s => decide (s.state = StepState.current)) = 1) ∧
    (∀ step, (markStepCurrent steps k)[k]? = some step →
      step.state = StepState.current) ∧
    (∀ i step, i < k → (markStepCurrent steps k)[i]? = some step →
      step.state = StepState.completed) := by
  refine ⟨?_, markStepCurrent_countP steps k hk, ?_, ?_⟩
  · intro i step hik h
    rw [markStepCompleted_getElem?] at h
    rcases Option.map_eq_some'.mp h with ⟨s0, hs0, rfl⟩
    simp [hik]
  · intro step h
    rw [markStepCurrent_getElem?] at h
    rcases Option.map_eq_some'.mp h with ⟨s0, hs0, rfl⟩
    simp
  · intro i step hik h
    rw [markStepCurrent_getElem?] at h
    rcases Option.map_eq_some'.mp h with ⟨s0, hs0, rfl⟩
    simp [hik]

/-- Witness for C8 at the sample plan and index 1. -/
theorem markStep_completion_monotone_and_unique_current_witness :
    1 < samplePlan.length ∧
    ((∀ i step, i ≤ 1 → (markStepCompleted samplePlan 1)[i]? = some step →
      step.state = StepState.completed) ∧
    ((markStepCurrent samplePlan 1).countP
      (fun s => decide (s.state = StepState.current)) = 1) ∧
    (∀ step, (markStepCurrent samplePlan 1)[1]? = some step →
      step.state = StepState.current) ∧
    (∀ i step, i < 1 → (markStepCurrent samplePlan 1)[i]? = some step →
      step.state = StepState.completed)) :=
  ⟨by decide, markStep_completion_monotone_and_unique_current samplePlan 1 (by decide)⟩

/-! ### Claim C10 -/

/-- C10: for every steps array and indices i < j within range, the step of
markStepCurrent(steps, i) at position j is reset to pending regardless of its
prior status. -/
theorem markStepCurrent_resets_later_steps
    (steps : List PlanStep) (i j : Nat)
    (hi : i < steps.length) (hj : j < steps.length) (hij : i < j) :
    ∀ step, (markStepCurrent steps i)[j]? = some step →
      step.state = StepState.pending := by
  intro step h
  rw [markStepCurrent_getElem?] at h
  rcases Option.map_eq_some'.mp h with ⟨s0, hs0, rfl⟩
  have h1 : ¬ j < i := by omega
  have h2 : ¬ j = i := by omega
  simp [h1, h2]

/-- Witness for C10: the failed step after position 0 is reset to pending. -/
theorem markStepCurrent_resets_later_steps_witness :
    0 < samplePlan.length ∧ 1 < samplePlan.length ∧ 0 < 1 ∧
    (∀ step, (markStepCurrent samplePlan 0)[1]? = some step →
      step.state = StepState.pending) :=
  ⟨by decide, by decide, by decide,
    markStepCurrent_resets_later_steps samplePlan 0 1 (by decide) (by decide) (by decide)⟩

/-! ### Claim C3 -/

/-- C3 counterexample: at hasRepo = false, needsSelection = true the produced
plan has two steps in state current (the wait-for-selection step at index 1
and the generation step at index 3), so the generation step is current even
though a selection step and an import step precede it, and the plan does not
contain at most one current step. -/
theorem generateUIGenerationPlan_two_current_steps :
    ((generateUIGenerationPlan false true).countP
      (fun s => decide (s.state = StepState.current)) = 2) ∧
    ((generateUIGenerationPlan false true)[1]?.map (fun s => s.state) =
      some StepState.current) ∧
    ((generateUIGenerationPlan false true)[3]?.map (fun s => s.state) =
      some StepState.current) := by
  decide

/-- C3 amended: for every pair of booleans except hasRepo = false with
needsSelection = true (a combination the router never passes, since a
payload with multiple suggestions always yields a detected repository), the
generation step is current only if neither a selection step nor an import
step precedes it, and the plan contains at most one current step. -/
theorem generateUIGenerationPlan_current_invariants
    (hasRepo needsSelection : Bool)
    (h : needsSelection = true → hasRepo = true) :
    (((generateUIGenerationPlan hasRepo needsSelection)[if needsSelection then (3 : Nat)
        else if hasRepo then 2 else 1]?.map (fun s => s.state) =
          some StepState.current) →
      hasRepo = false ∧ needsSelection = false) ∧
    ((generateUIGenerationPlan hasRepo needsSelection).countP
      (fun s => decide (s.state = StepState.current)) ≤ 1) := by
  cases hasRepo <;> cases needsSelection <;> simp_all <;> decide

/-- Witness for C3 amended at hasRepo = true, needsSelection = true. -/
theorem generateUIGenerationPlan_current_invariants_witness :
    (true = true → true = true) ∧
    ((((generateUIGenerationPlan true true)[if true then (3 : Nat)
        else if true then 2 else 1]?.map (fun s => s.state) =
          some StepState.current) →
      true = false ∧ true = false) ∧
    ((generateUIGenerationPlan true true).countP
      (fun s => decide (s.state = StepState.current)) ≤ 1)) :=
  ⟨by decide, generateUIGenerationPlan_current_invariants true true (by decide)⟩

/-! ### Claim C7 -/

/-- C7: whenever the structured suggestions list is non-empty, detectRepository
returns the suggestions-derived URL (the first suggestion's url, or the
synthesized github.com/owner/name) with source issueRepositorySuggestions —
never the description-derived one, even when the issue description also
contains a GitHub URL. -/
theorem detectRepository_suggestions_precedence (s : AgentSession)
    (suggestion : RepoSuggestion) (rest : List RepoSuggestion) (issue : Issue)
    (owner repo : String)
    (hs : s.issueRepositorySuggestions = some (suggestion :: rest))
    (hi : s.issue = some issue)
    (hd : findGithubUrl (jsOrString issue.description "").data = some (owner, repo)) :
    detectRepository s = .ok
      { repoUrl := some (jsOrString suggestion.url
          ("https://github.com/" ++ suggestion.owner ++ "/" ++ suggestion.name)),
        source := "issueRepositorySuggestions",
        suggestions := some (suggestion :: rest) } := by
  simp [detectRepository, hs]

/-- Witness for C7: one suggestion plus a GitHub URL in the description. -/
theorem detectRepository_suggestions_precedence_witness :
    precedenceSession.issueRepositorySuggestions = some [{ owner := "own", name := "nm" }] ∧
    precedenceSession.issue = some { description := some "see https://github.com/foo/bar for context" } ∧
    findGithubUrl (jsOrString (some "see https://github.com/foo/bar for context" : Option String) "").data = some ("foo", "bar") ∧
    detectRepository precedenceSession = .ok
      { repoUrl := some (jsOrString (none : Option String)
          ("https://github.com/" ++ "own" ++ "/" ++ "nm")),
        source := "issueRepositorySuggestions",
        suggestions := some [{ owner := "own", name := "nm" }] } :=
  ⟨rfl, rfl, by decide,
    detectRepository_suggestions_precedence precedenceSession
      { owner := "own", name := "nm" } []
      { description := some "see https://github.com/foo/bar for context" }
      "foo" "bar" rfl rfl (by decide)⟩

/-! ### Claim C1 -/

/-- C1 evaluated at the failing input: delivering the same creation event for
tracker session S1 twice makes two generation-API create calls and runs
storeSession twice, and the session store is never consulted — the second
invocation is not short-circuited, contrary to the claim. -/
theorem runCreatedTwice_two_generation_creates :
    runCreatedTwice.world.trace.countP Call.isGenerationCreate = 2 ∧
    runCreatedTwice.world.writes = ["S1", "S1"] ∧
    runCreatedTwice.world.reads = [] :=
  ⟨rfl, rfl, rfl⟩

/-! ### Claim C2 -/

/-- C2 evaluated at the failing input: a recognized created event whose
agentSession is present but whose issue is missing makes handleLinearWebhook
raise (the logging access to issue.identifier precedes the try block), so the
entry point does not return a structured result for every payload. -/
theorem handleLinearWebhook_throws_on_missing_issue :
    (handleLinearWebhook {} missingIssuePayload {}).isThrown = true :=
  rfl
/-! ### Claim C5 -/

/-- C5: calling the prompted protocol for a session id that was never created,
with no repository-selection signal present, returns success = false, emits a
user-visible error activity, and issues no generation-API or deployment-API
call (for every behaviour of the external collaborators, given an available
tracker client). -/
theorem prompted_missing_session_no_generation
    (env : Env) (data : EventData) (agentSession : AgentSession) (issue : Issue)
    (w : World)
    (hda : data.agentSession = some agentSession)
    (hiss : agentSession.issue = some issue)
    (hclient : env.clientOk = true)
    (hsig : repoSignalValue agentSession = none)
    (hstore : storeGet w.store agentSession.id = none)
    (htrace : w.trace = []) :
    ∃ r w2, handleAgentSessionPrompted env (some data) w = .ok r w2 ∧
      r.success = false ∧
      w2.trace.countP (Call.isErrorActivityFor agentSession.id) ≥ 1 ∧
      w2.trace.countP Call.isGenerationCall = 0 ∧
      w2.trace.countP Call.isDeploymentCall = 0 := by
  obtain ⟨store, trace, writes, reads, now⟩ := w
  simp only at htrace hstore
  subst htrace
  simp only [handleAgentSessionPrompted, hda, hiss, promptedBody, hclient,
    Bool.not_true, Bool.false_eq_true, if_false, issueCall, getSession, hsig]
  cases h1 : env.activityResult agentSession.id
      (ActivityContent.thought "Processing your feedback...") with
  | error e =>
    simp only [routerCatch, hclient, if_true, issueCall]
    refine ⟨_, _, rfl, rfl, ?_, ?_, ?_⟩ <;>
      simp [List.countP_cons, Call.isErrorActivityFor, Call.isGenerationCall,
        Call.isDeploymentCall, Call.isThoughtActivity]
  | ok u =>
    simp only [hstore]
    cases h2 : env.activityResult agentSession.id
        (ActivityContent.error "No active V0 session found. Please delegate the issue again.") with
    | error e =>
      simp only [routerCatch, hclient, if_true, issueCall]
      refine ⟨_, _, rfl, rfl, ?_, ?_, ?_⟩ <;>
        simp [List.countP_cons, Call.isErrorActivityFor, Call.isGenerationCall,
          Call.isDeploymentCall]
    | ok u2 =>
      refine ⟨_, _, rfl, rfl, ?_, ?_, ?_⟩ <;>
        simp [List.countP_cons, Call.isErrorActivityFor, Call.isGenerationCall,
          Call.isDeploymentCall]

/-- Witness for C5: a prompted event for the never-created id S1 against an
empty store, with the default all-succeeding environment. -/
theorem prompted_missing_session_no_generation_witness :
    ∃ r w2, handleAgentSessionPrompted {} (some promptedData) {} = .ok r w2 ∧
      r.success = false ∧
      w2.trace.countP (Call.isErrorActivityFor "S1") ≥ 1 ∧
      w2.trace.countP Call.isGenerationCall = 0 ∧
      w2.trace.countP Call.isDeploymentCall = 0 :=
  prompted_missing_session_no_generation {} promptedData
    { id := "S1", issue := some { identifier := "ABC-1" } }
    { identifier := "ABC-1" } {} rfl rfl rfl rfl rfl rfl
/-! ### Claim C6 -/

/-- C6: on a prompted event for a stored session (and no repository signal),
a promptContext matching the case-insensitive whole-word deploy regex issues
exactly one deployment-API call, no continue-conversation call, and updates
the stored record's deploymentUrl; a promptContext with no such match issues
no deployment call and exactly one continue-conversation call with the stored
chat id, updating the record's latestVersionId. -/
theorem prompted_deploy_or_refine
    (env : Env) (data : EventData) (agentSession : AgentSession) (issue : Issue)
    (w : World) (sess : SessionData) (dep : Deployment) (resp : ContinueResult)
    (hda : data.agentSession = some agentSession)
    (hiss : agentSession.issue = some issue)
    (hclient : env.clientOk = true)
    (hsig : repoSignalValue agentSession = none)
    (hstore : storeGet w.store agentSession.id = some sess)
    (htrace : w.trace = [])
    (hthought : env.activityResult agentSession.id
      (ActivityContent.thought "Processing your feedback...") = .ok ())
    (hact1 : env.activityResult agentSession.id
      (ActivityContent.action "Deploying to Vercel...") = .ok ())
    (hdeploy : env.deployToVercelResult sess.chatId sess.projectId = .ok dep)
    (hact2 : env.activityResult agentSession.id
      (ActivityContent.action "Applying your feedback...") = .ok ())
    (hcont : env.continueV0SessionResult sess.chatId
      (jsOrString agentSession.promptContext "") = .ok resp) :
    (isDeployCommand (jsOrString agentSession.promptContext "") = true →
      (handleAgentSessionPrompted env (some data) w).world.trace.countP
        Call.isDeploymentCall = 1 ∧
      (handleAgentSessionPrompted env (some data) w).world.trace.countP
        Call.isContinueCall = 0 ∧
      storeGet (handleAgentSessionPrompted env (some data) w).world.store
        agentSession.id =
        some { sess with deploymentUrl := some dep.deploymentUrl, updatedAt := w.now }) ∧
    (isDeployCommand (jsOrString agentSession.promptContext "") = false →
      (handleAgentSessionPrompted env (some data) w).world.trace.countP
        Call.isDeploymentCall = 0 ∧
      (handleAgentSessionPrompted env (some data) w).world.trace.countP
        Call.isContinueCall = 1 ∧
      Call.continueV0Chat sess.chatId (jsOrString agentSession.promptContext "") ∈
        (handleAgentSessionPrompted env (some data) w).world.trace ∧
      storeGet (handleAgentSessionPrompted env (some data) w).world.store
        agentSession.id =
        some { sess with latestVersionId := resp.latestVersionId, updatedAt := w.now }) := by
  obtain ⟨store, trace, writes, reads, now⟩ := w
  simp only at htrace hstore ⊢
  subst htrace
  simp only [handleAgentSessionPrompted, hda, hiss, promptedBody, hclient,
    Bool.not_true, Bool.false_eq_true, if_false, issueCall, getSession, hsig,
    hthought, hstore]
  cases hdc : isDeployCommand (jsOrString agentSession.promptContext "") with
  | true =>
    refine ⟨fun _ => ?_, fun hfalse => by simp at hfalse⟩
    simp only [promptedDeploy, issueCall, hact1, hdeploy, updateSession, hstore,
      storeGet_storePut_self]
    cases h3 : env.updateAgentSessionResult agentSession.id
        [⟨"V0 Chat", sess.chatUrl⟩,
         ⟨"Vercel Deployment", some dep.deploymentUrl⟩] with
    | error e =>
      simp only [routerCatch, hclient, if_true, issueCall]
      refine ⟨?_, ?_, ?_⟩ <;>
        simp [List.countP_cons, Call.isDeploymentCall, Call.isContinueCall, JsOutcome.world,
          storeGet_storePut_self]
    | ok u =>
      cases h4 : env.activityResult agentSession.id
          (ActivityContent.message
            ("🚀 Deployed to Vercel!\n\n[View Deployment](" ++ dep.deploymentUrl ++ ")")) with
      | error e =>
        simp only [routerCatch, hclient, if_true, issueCall]
        refine ⟨?_, ?_, ?_⟩ <;>
          simp [List.countP_cons, Call.isDeploymentCall, Call.isContinueCall, JsOutcome.world,
            storeGet_storePut_self]
      | ok u2 =>
        refine ⟨?_, ?_, ?_⟩ <;>
          simp [List.countP_cons, Call.isDeploymentCall, Call.isContinueCall, JsOutcome.world,
            storeGet_storePut_self]
  | false =>
    refine ⟨fun htrue => by simp at htrue, fun _ => ?_⟩
    simp only [promptedRefine, issueCall, hact2, hcont, updateSession, hstore,
      storeGet_storePut_self]
    cases h4 : env.activityResult agentSession.id
        (ActivityContent.message
          ("✅ Changes applied!\n\n[View updated version](" ++ jsStr sess.chatUrl ++
           ")\n\n@mention with more feedback or \"deploy\" to go live.")) with
    | error e =>
      simp only [routerCatch, hclient, if_true, issueCall]
      refine ⟨?_, ?_, ?_, ?_⟩ <;>
        simp [List.countP_cons, Call.isDeploymentCall, Call.isContinueCall, JsOutcome.world,
          storeGet_storePut_self]
    | ok u2 =>
      refine ⟨?_, ?_, ?_, ?_⟩ <;>
        simp [List.countP_cons, Call.isDeploymentCall, Call.isContinueCall, JsOutcome.world,
          storeGet_storePut_self]

/-- Witness for C6: the deploy prompt of spec section 8 property 8 against a
stored session, with the default all-succeeding environment. -/
theorem prompted_deploy_or_refine_witness :
    (isDeployCommand (jsOrString (some "please deploy this now") "") = true →
      (handleAgentSessionPrompted {} (some deployPromptData)
        { store := [("S1", storedSession)] }).world.trace.countP
          Call.isDeploymentCall = 1 ∧
      (handleAgentSessionPrompted {} (some deployPromptData)
        { store := [("S1", storedSession)] }).world.trace.countP
          Call.isContinueCall = 0 ∧
      storeGet (handleAgentSessionPrompted {} (some deployPromptData)
        { store := [("S1", storedSession)] }).world.store "S1" =
        some { storedSession with deploymentUrl := some "d", updatedAt := 0 }) ∧
    (isDeployCommand (jsOrString (some "please deploy this now") "") = false →
      (handleAgentSessionPrompted {} (some deployPromptData)
        { store := [("S1", storedSession)] }).world.trace.countP
          Call.isDeploymentCall = 0 ∧
      (handleAgentSessionPrompted {} (some deployPromptData)
        { store := [("S1", storedSession)] }).world.trace.countP
          Call.isContinueCall = 1 ∧
      Call.continueV0Chat "chat-1" (jsOrString (some "please deploy this now") "") ∈
        (handleAgentSessionPrompted {} (some deployPromptData)
          { store := [("S1", storedSession)] }).world.trace ∧
      storeGet (handleAgentSessionPrompted {} (some deployPromptData)
        { store := [("S1", storedSession)] }).world.store "S1" =
        some { storedSession with latestVersionId := none, updatedAt := 0 }) :=
  prompted_deploy_or_refine {} deployPromptData
    { id := "S1", issue := some { identifier := "ABC-1" },
      promptContext := some "please deploy this now" }
    { identifier := "ABC-1" }
    { store := [("S1", storedSession)] } storedSession ⟨"d"⟩ {}
    rfl rfl rfl rfl rfl rfl rfl rfl rfl rfl rfl
/-! ### Claim C9 -/

/-- C9: a prompted event carrying a truthy repository signal initializes a
generation chat from that URL and stores the session without consulting the
session store first (the read log is untouched, for every prior store content,
in particular when a record for the id already exists): storeSession replaces
any existing record with a fresh one whose createdAt is this invocation's
clock and whose latestVersionId and deploymentUrl are absent, and the
deploy/refine classification is never reached (no deployment-API call, no
continue-conversation call). -/
theorem prompted_repo_signal_reinitializes
    (env : Env) (data : EventData) (agentSession : AgentSession) (issue : Issue)
    (w : World) (v : String) (proj : ProjectInfo) (v0s : V0Session)
    (hda : data.agentSession = some agentSession)
    (hiss : agentSession.issue = some issue)
    (hclient : env.clientOk = true)
    (hsig : repoSignalValue agentSession = some v)
    (htrace : w.trace = [])
    (hthought : env.activityResult agentSession.id
      (ActivityContent.thought "Processing your feedback...") = .ok ())
    (hproj : env.createOrFindProjectResult (generateProjectName issue) = .ok proj)
    (hinit : env.initFromRepoResult v proj.projectId = .ok v0s) :
    (handleAgentSessionPrompted env (some data) w).world.reads = w.reads ∧
    (handleAgentSessionPrompted env (some data) w).world.writes =
      w.writes ++ [agentSession.id] ∧
    storeGet (handleAgentSessionPrompted env (some data) w).world.store
      agentSession.id = some
      { linearSessionId := agentSession.id, chatId := v0s.chatId,
        projectId := some proj.projectId, latestVersionId := none,
        chatUrl := some v0s.chatUrl, deploymentUrl := none,
        repoUrl := some v, createdAt := w.now, updatedAt := w.now } ∧
    (handleAgentSessionPrompted env (some data) w).world.trace.countP
      Call.isDeploymentCall = 0 ∧
    (handleAgentSessionPrompted env (some data) w).world.trace.countP
      Call.isContinueCall = 0 := by
  obtain ⟨store, trace, writes, reads, now⟩ := w
  simp only at htrace ⊢
  subst htrace
  simp only [handleAgentSessionPrompted, hda, hiss, promptedBody, hclient,
    Bool.not_true, Bool.false_eq_true, if_false, issueCall, hsig, hthought,
    promptedRepoInit, hproj, hinit, storeSession]
  cases h3 : env.updateAgentSessionResult agentSession.id
      [⟨"V0 Chat", some v0s.chatUrl⟩] with
  | error e =>
    simp only [routerCatch, hclient, if_true, issueCall]
    refine ⟨?_, ?_, ?_, ?_, ?_⟩ <;>
      simp [List.countP_cons, Call.isDeploymentCall, Call.isContinueCall,
        JsOutcome.world, storeGet_storePut_self]
  | ok u =>
    cases h4 : env.activityResult agentSession.id
        (ActivityContent.message
          ("🎨 Initialized with " ++ v ++ "\n\n[View in V0](" ++ v0s.chatUrl ++ ")")) with
    | error e =>
      simp only [routerCatch, hclient, if_true, issueCall]
      refine ⟨?_, ?_, ?_, ?_, ?_⟩ <;>
        simp [List.countP_cons, Call.isDeploymentCall, Call.isContinueCall,
          JsOutcome.world, storeGet_storePut_self]
    | ok u2 =>
      refine ⟨?_, ?_, ?_, ?_, ?_⟩ <;>
        simp [List.countP_cons, Call.isDeploymentCall, Call.isContinueCall,
          JsOutcome.world, storeGet_storePut_self]

/-- Witness for C9: a repository-selection signal arriving while a session
record for S1 (with a stored latestVersionId and deploymentUrl) already
exists; the record is replaced by a fresh one stamped with the current clock. -/
theorem prompted_repo_signal_reinitializes_witness :
    (handleAgentSessionPrompted {} (some repoSignalData)
      { store := [("S1", storedSession)], now := 9 }).world.reads = [] ∧
    (handleAgentSessionPrompted {} (some repoSignalData)
      { store := [("S1", storedSession)], now := 9 }).world.writes = ["S1"] ∧
    storeGet (handleAgentSessionPrompted {} (some repoSignalData)
      { store := [("S1", storedSession)], now := 9 }).world.store "S1" = some
      { linearSessionId := "S1", chatId := "c",
        projectId := some "p", latestVersionId := none,
        chatUrl := some "u", deploymentUrl := none,
        repoUrl := some "https://github.com/own/nm", createdAt := 9, updatedAt := 9 } ∧
    (handleAgentSessionPrompted {} (some repoSignalData)
      { store := [("S1", storedSession)], now := 9 }).world.trace.countP
        Call.isDeploymentCall = 0 ∧
    (handleAgentSessionPrompted {} (some repoSignalData)
      { store := [("S1", storedSession)], now := 9 }).world.trace.countP
        Call.isContinueCall = 0 :=
  prompted_repo_signal_reinitializes {} repoSignalData
    { id := "S1", issue := some { identifier := "ABC-1" },
      guidance := some {
        signals := some [{ key := "repository", value := some "https://github.com/own/nm" }] } }
    { identifier := "ABC-1" }
    { store := [("S1", storedSession)], now := 9 }
    "https://github.com/own/nm" ⟨"p"⟩ ⟨"c", "u"⟩
    rfl rfl rfl rfl rfl rfl rfl rfl
/-! ### Claim C4: trace lemmas -/

theorem activityRanks_append (a b : List Call) :
    activityRanks (a ++ b) = activityRanks a ++ activityRanks b := by
  simp [activityRanks, List.filterMap_append]

/-- Every trace the created try-block can leave behind (from an empty trace)
starts with the acknowledgment thought and lists its activities in protocol
order. -/
theorem createdBody_traceOk (env : Env) (s : AgentSession) (issue : Issue)
    (w : World) (h : w.trace = []) :
    BodyTraceOk env.clientOk ((createdBody env s issue w).world.trace) := by
  obtain ⟨store, trace, writes, reads, now⟩ := w
  simp only at h
  subst h
  cases hc : env.clientOk with
  | false =>
    simp [createdBody, hc, BodyTraceOk, activityRanks, JsOutcome.world]
  | true =>
    simp only [createdBody, createdTail, hc, Bool.not_true, Bool.false_eq_true,
      if_false, issueCall, storeSession]
    repeat' split
    all_goals
      simp_all [BodyTraceOk, activityRanks, activityRank, JsOutcome.world,
        Call.isThoughtActivity, List.chain'_cons, List.chain'_singleton]

/-- Every trace the prompted try-block can leave behind (from an empty trace)
starts with the acknowledgment thought and lists its activities in protocol
order. -/
theorem promptedBody_traceOk (env : Env) (s : AgentSession) (issue : Issue)
    (w : World) (h : w.trace = []) :
    BodyTraceOk env.clientOk ((promptedBody env s issue w).world.trace) := by
  obtain ⟨store, trace, writes, reads, now⟩ := w
  simp only at h
  subst h
  cases hc : env.clientOk with
  | false =>
    simp [promptedBody, hc, BodyTraceOk, activityRanks, JsOutcome.world]
  | true =>
    simp only [promptedBody, promptedRepoInit, promptedDeploy, promptedRefine,
      hc, Bool.not_true, Bool.false_eq_true, if_false, issueCall, storeSession,
      getSession, updateSession]
    repeat' split
    all_goals
      simp_all [BodyTraceOk, activityRanks, activityRank, JsOutcome.world,
        Call.isThoughtActivity, List.chain'_cons, List.chain'_singleton]

/-- Wrapping a try-block outcome with the shared catch block preserves the
head-thought property and the protocol order of activities. -/
theorem goodTrace_routerCatch (env : Env) (sid : String)
    (prefixText msg : String) (w2 : World)
    (hfalse : env.clientOk = false → w2.trace = [])
    (hne : env.clientOk = true → w2.trace ≠ [])
    (hhead : ∀ c, w2.trace.head? = some c → c.isThoughtActivity = true)
    (hchain : List.Chain' (· ≤ ·) (activityRanks w2.trace))
    (hbound : ∀ r ∈ activityRanks w2.trace, r ≤ 4) :
    GoodTrace ((routerCatch env sid prefixText msg w2).world.trace) := by
  cases hc : env.clientOk with
  | false =>
    have h0 := hfalse hc
    simp_all [routerCatch, GoodTrace, JsOutcome.world, activityRanks]
  | true =>
    simp only [routerCatch, hc, if_true, issueCall, JsOutcome.world]
    constructor
    · intro c hch
      cases htr : w2.trace with
      | nil => exact absurd htr (hne hc)
      | cons a rest =>
        rw [htr] at hch
        simp only [List.cons_append, List.head?_cons, Option.some.injEq] at hch
        subst hch
        exact hhead _ (by rw [htr]; rfl)
    · rw [activityRanks_append]
      rw [List.chain'_append]
      refine ⟨hchain, ?_, ?_⟩
      · simp [activityRanks, activityRank]
      · intro x hx y hy
        have hxl : x ∈ activityRanks w2.trace := by
          rcases List.mem_getLast?_eq_getLast hx with ⟨hnn, rfl⟩
          exact List.getLast_mem hnn
        have hx4 := hbound x hxl
        simp [activityRanks, activityRank] at hy
        omega

/-- The created handler emits the acknowledgment thought first and all
activities in protocol order, for every event data, environment behaviour and
starting world with an empty trace. -/
theorem handleAgentSessionCreated_goodTrace (env : Env) (data : Option EventData)
    (w : World) (h : w.trace = []) :
    GoodTrace ((handleAgentSessionCreated env data w).world.trace) := by
  cases data with
  | none => simp [handleAgentSessionCreated, GoodTrace, JsOutcome.world, h, activityRanks]
  | some d =>
    cases hAS : d.agentSession with
    | none => simp [handleAgentSessionCreated, hAS, GoodTrace, JsOutcome.world, h, activityRanks]
    | some agentSession =>
      cases hIss : agentSession.issue with
      | none => simp [handleAgentSessionCreated, hAS, hIss, GoodTrace, JsOutcome.world, h, activityRanks]
      | some issue =>
        simp only [handleAgentSessionCreated, hAS, hIss]
        have hb := createdBody_traceOk env agentSession issue w h
        cases hout : createdBody env agentSession issue w with
        | ok r w2 =>
          rw [hout] at hb
          simp only [JsOutcome.world] at hb
          obtain ⟨h1, h2, h3, h4, h5⟩ := hb
          exact ⟨h3, h4⟩
        | thrown msg w2 =>
          rw [hout] at hb
          simp only [JsOutcome.world] at hb
          obtain ⟨h1, h2, h3, h4, h5⟩ := hb
          exact goodTrace_routerCatch env _ _ _ _ h1 h2 h3 h4 h5

/-- The prompted handler emits the acknowledgment thought first and all
activities in protocol order, for every event data, environment behaviour and
starting world with an empty trace. -/
theorem handleAgentSessionPrompted_goodTrace (env : Env) (data : Option EventData)
    (w : World) (h : w.trace = []) :
    GoodTrace ((handleAgentSessionPrompted env data w).world.trace) := by
  cases data with
  | none => simp [handleAgentSessionPrompted, GoodTrace, JsOutcome.world, h, activityRanks]
  | some d =>
    cases hAS : d.agentSession with
    | none => simp [handleAgentSessionPrompted, hAS, GoodTrace, JsOutcome.world, h, activityRanks]
    | some agentSession =>
      cases hIss : agentSession.issue with
      | none => simp [handleAgentSessionPrompted, hAS, hIss, GoodTrace, JsOutcome.world, h, activityRanks]
      | some issue =>
        simp only [handleAgentSessionPrompted, hAS, hIss]
        have hb := promptedBody_traceOk env agentSession issue w h
        cases hout : promptedBody env agentSession issue w with
        | ok r w2 =>
          rw [hout] at hb
          simp only [JsOutcome.world] at hb
          obtain ⟨h1, h2, h3, h4, h5⟩ := hb
          exact ⟨h3, h4⟩
        | thrown msg w2 =>
          rw [hout] at hb
          simp only [JsOutcome.world] at hb
          obtain ⟨h1, h2, h3, h4, h5⟩ := hb
          exact goodTrace_routerCatch env _ _ _ _ h1 h2 h3 h4 h5

/-- C4: for every recognized created or prompted event (and every behaviour of
the external collaborators), the first outbound network call the router issues
is the acknowledgment activity of kind thought — before any generation,
deployment, or other tracker call — and the activities of the event are
emitted in the protocol order of spec section 4.1 (plan updates are
session-level checklist replacements per spec section 6, not activities). -/
theorem handleLinearWebhook_activity_order (env : Env) (payload : Payload)
    (w : World)
    (htype : payload.type = some "AgentSessionEvent")
    (haction : payload.action = some "created" ∨ payload.action = some "prompted")
    (htrace : w.trace = []) :
    GoodTrace ((handleLinearWebhook env payload w).world.trace) := by
  cases haction with
  | inl ha =>
    have hkey : jsStr payload.type ++ "." ++ jsStr payload.action =
        "AgentSessionEvent.created" := by
      rw [htype, ha]; rfl
    simp only [handleLinearWebhook, hkey, if_pos rfl]
    exact handleAgentSessionCreated_goodTrace env payload.data w htrace
  | inr ha =>
    have hkey : jsStr payload.type ++ "." ++ jsStr payload.action =
        "AgentSessionEvent.prompted" := by
      rw [htype, ha]; rfl
    rw [handleLinearWebhook, hkey]
    rw [if_neg (by decide), if_pos rfl]
    exact handleAgentSessionPrompted_goodTrace env payload.data w htrace

/-- Witness for C4: the end-to-end created event of spec section 8 property 7
with the default all-succeeding environment. -/
theorem handleLinearWebhook_activity_order_witness :
    GoodTrace ((handleLinearWebhook {} createdPayload {}).world.trace) :=
  handleLinearWebhook_activity_order {} createdPayload {} rfl (Or.inl rfl) rfl
